import Mathlib

/-!
Shallow embedding of the SHIB Ads WebApp backend, `src/api/index.js`
(final revision: the one defining MIN_TIME_BETWEEN_ACTIONS_MS and the
action-token system).

Modelling conventions:
* JavaScript numbers are modelled by `JSNum`: an exact rational, or NaN
  (the result of `parseFloat` on a non-numeric string).  Comparisons
  against NaN are false and arithmetic with NaN yields NaN, as in JS.
  Rationals model the numeric literals of the source exactly; no claim
  here depends on IEEE-754 rounding (in particular `3 * 0.05` is a
  non-integer both as a rational and as a double).
* Timestamps are integers in milliseconds.  A handler invocation is
  modelled with an explicit `now` parameter standing for `Date.now()`.
* The Supabase store is modelled by `DB`, a record of lists, one per
  table.  A `GET` with an `eq` filter is `List.filter` (handlers read
  the first row of the result, as the source does with `rows[0]`); a
  `PATCH` with an `id=eq` filter updates every matching row
  (`updateUser`); a `POST` appends; a `DELETE` with a filter removes the
  matching rows.  Store-failure paths (the catch blocks returning 500)
  are outside the model.
* `Math.random()` and `crypto.randomBytes` are modelled by explicit
  parameters carrying the drawn randomness.
-/

/-- JavaScript number: an exact rational or NaN. -/
inductive JSNum where
  | num (q : ℚ)
  | nan
deriving DecidableEq

/-- JS addition; NaN is absorbing. -/
def JSNum.add : JSNum → JSNum → JSNum
  | .num a, .num b => .num (a + b)
  | _, _ => .nan

/-- JS subtraction; NaN is absorbing. -/
def JSNum.sub : JSNum → JSNum → JSNum
  | .num a, .num b => .num (a - b)
  | _, _ => .nan

/-- The JS comparison `a < b`: false whenever either side is NaN. -/
def JSNum.ltb : JSNum → JSNum → Bool
  | .num a, .num b => decide (a < b)
  | _, _ => false

/-- The number is finite and non-negative (NaN is not). -/
def JSNum.nonnegb : JSNum → Bool
  | .num q => decide (0 ≤ q)
  | .nan => false

/-- The number is a whole number, i.e. a rational with denominator 1
(NaN is not). -/
def JSNum.isWholeb : JSNum → Bool
  | .num q => q.den == 1
  | .nan => false

-- ------------------------------------------------------------------
-- Server-side constants (src/api/index.js lines 596-602)
-- ------------------------------------------------------------------

def REWARD_PER_AD : ℚ := 3

/-- 0.05 in the source; exact as a rational. -/
def REFERRAL_COMMISSION_RATE : ℚ := 5 / 100

def DAILY_MAX_ADS : Nat := 100

def DAILY_MAX_SPINS : Nat := 15

/-- 3 seconds minimum time between watchAd/spin requests. -/
def MIN_TIME_BETWEEN_ACTIONS_MS : Int := 3000

/-- 60 seconds for an Action ID to be valid. -/
def ACTION_ID_EXPIRY_MS : Int := 60000

def SPIN_SECTORS : List Nat := [5, 10, 15, 20, 5]

/-- Result of `calculateRandomSpinPrize`. -/
structure SpinPrize where
  prize : Nat
  prizeIndex : Nat
deriving DecidableEq

/-- `calculateRandomSpinPrize` with the value of `Math.random()` passed
explicitly: `randomIndex = Math.floor(r * SPIN_SECTORS.length)` and the
prize is the sector entry at that index (JS out-of-range indexing is
modelled by `getD`; it never occurs for `0 ≤ r < 1`). -/
def calculateRandomSpinPrize (r : ℚ) : SpinPrize :=
  let randomIndex := (⌊r * (SPIN_SECTORS.length : ℚ)⌋).toNat
  { prize := SPIN_SECTORS.getD randomIndex 0, prizeIndex := randomIndex }

-- ------------------------------------------------------------------
-- Data model: rows of the store tables
-- ------------------------------------------------------------------

/-- A row of the `users` table. -/
structure UserRec where
  id : Nat
  balance : JSNum
  ads_watched_today : Nat
  spins_today : Nat
  /-- milliseconds since epoch; `none` models the SQL null. -/
  last_activity : Option Int
  ref_by : Option Nat
  is_banned : Bool
deriving DecidableEq

/-- A row of the `temp_actions` (action-token) table.  `id` is the
database primary key; `action_id` is the opaque token value;
`created_at` is the insertion timestamp assigned by the store. -/
structure TokenRec where
  id : Nat
  user_id : Nat
  action_id : Nat
  action_type : String
  created_at : Int
deriving DecidableEq

/-- A row of the `withdrawals` table. -/
structure WithdrawalRec where
  user_id : Nat
  amount : JSNum
  binance_id : String
  status : String
deriving DecidableEq

/-- A row of the `spin_results` table. -/
structure SpinRec where
  user_id : Nat
  prize : Nat
deriving DecidableEq

/-- A row of the `commission_history` table. -/
structure CommissionRec where
  referrer_id : Nat
  referee_id : Nat
  amount : JSNum
  source_reward : JSNum
deriving DecidableEq

/-- The persistent store. -/
structure DB where
  users : List UserRec
  temp_actions : List TokenRec
  withdrawals : List WithdrawalRec
  spin_results : List SpinRec
  commission_history : List CommissionRec
deriving DecidableEq

/-- `GET users?id=eq.uid`, reading the first returned row. -/
def findUser (users : List UserRec) (uid : Nat) : Option UserRec :=
  (users.filter (fun u => u.id == uid)).head?

/-- `PATCH users?id=eq.uid` with the field updates `f`: every row whose
id matches is updated. -/
def updateUser (users : List UserRec) (uid : Nat) (f : UserRec → UserRec) :
    List UserRec :=
  users.map (fun u => if u.id == uid then f u else u)

/-- `user.last_activity ? new Date(user.last_activity).getTime() : 0`. -/
def lastActivityMs (u : UserRec) : Int := u.last_activity.getD 0

-- ------------------------------------------------------------------
-- Responses
-- ------------------------------------------------------------------

/-- The `data` object of a success response, one constructor per
handler shape. -/
inductive RespData where
  | watchAd (new_balance : JSNum) (actual_reward : JSNum) (new_ads_count : Nat)
  | spinCount (new_spins_count : Nat)
  | spinResultData (new_balance : JSNum) (actual_prize : Nat) (prize_index : Nat)
  | withdrawBalance (new_balance : JSNum)
  | commissionBalance (new_referrer_balance : JSNum)
  | actionId (action_id : Nat)
  | ack (message : String)
deriving DecidableEq

/-- A handler response: `sendSuccess` or `sendError message status`. -/
inductive Resp where
  | success (data : RespData)
  | err (message : String) (status : Nat)
deriving DecidableEq

-- ------------------------------------------------------------------
-- Action-token system (Replay Guard)
-- ------------------------------------------------------------------

/-- `crypto.randomBytes(32).toString('hex')`: 32 random bytes, i.e. a
value drawn from a space of `2 ^ (8 * 32)` equally likely values.  The
drawn randomness is the argument. -/
def generateStrongId (randomness : Nat) : Nat := randomness % 2 ^ (8 * 32)

/-- `GET temp_actions?user_id=eq...&action_id=eq...&action_type=eq...`,
reading the first row. -/
def findToken (tokens : List TokenRec) (uid : Nat) (aid : Nat)
    (atype : String) : Option TokenRec :=
  (tokens.filter
    (fun t => t.user_id == uid && t.action_id == aid && t.action_type == atype)).head?

/-- `DELETE temp_actions?id=eq.tid`. -/
def deleteTokenById (tokens : List TokenRec) (tid : Nat) : List TokenRec :=
  tokens.filter (fun t => !(t.id == tid))

/-- Outcome of `validateAndUseActionId`: in the source a rejection sends
the error response and returns false; acceptance returns true. -/
inductive TokenCheck where
  | rejected (message : String) (status : Nat)
  | accepted
deriving DecidableEq

/-- `validateAndUseActionId(res, userId, actionId, actionType)`: checks
that the action token exists for (user, value, kind), is not expired,
and deletes it; returns the outcome together with the new token table.
A missing `action_id` field is modelled by `none`. -/
def validateAndUseActionId (now : Int) (tokens : List TokenRec) (uid : Nat)
    (actionId : Option Nat) (actionType : String) :
    TokenCheck × List TokenRec :=
  match actionId with
  | none =>
      (.rejected "Missing Server Token (Action ID). Request rejected." 400, tokens)
  | some aid =>
      match findToken tokens uid aid actionType with
      | none =>
          (.rejected "Invalid or previously used Server Token (Action ID)." 409, tokens)
      | some record =>
          if now - record.created_at > ACTION_ID_EXPIRY_MS then
            (.rejected "Server Token (Action ID) expired. Please try again." 408,
             deleteTokenById tokens record.id)
          else
            (.accepted, deleteTokenById tokens record.id)

/-- `GET temp_actions?user_id=eq...&action_type=eq...`. -/
def findTokensByType (tokens : List TokenRec) (uid : Nat) (atype : String) :
    List TokenRec :=
  tokens.filter (fun t => t.user_id == uid && t.action_type == atype)

/-- `handleGenerateActionId`: if an unexpired token already exists for
(user, kind) its value is returned and nothing is inserted; otherwise
any leftover rows for (user, kind) are deleted and a fresh token is
inserted.  `nextId` is the primary key the store assigns to the new row
and `created_at` of the new row is the store insertion timestamp
(`now`); `rnd` is the randomness drawn by `generateStrongId`. -/
def handleGenerateActionId (now : Int) (tokens : List TokenRec) (uid : Nat)
    (actionType : Option String) (nextId : Nat) (rnd : Nat) :
    Resp × List TokenRec :=
  match actionType with
  | none => (.err "Missing action_type." 400, tokens)
  | some atype =>
      match (findTokensByType tokens uid atype).head? with
      | some t0 =>
          if now - t0.created_at < ACTION_ID_EXPIRY_MS then
            (.success (.actionId t0.action_id), tokens)
          else
            let cleaned :=
              tokens.filter (fun t => !(t.user_id == uid && t.action_type == atype))
            let newActionId := generateStrongId rnd
            (.success (.actionId newActionId),
             cleaned ++ [{ id := nextId, user_id := uid, action_id := newActionId,
                           action_type := atype, created_at := now }])
      | none =>
          let newActionId := generateStrongId rnd
          (.success (.actionId newActionId),
           tokens ++ [{ id := nextId, user_id := uid, action_id := newActionId,
                        action_type := atype, created_at := now }])

-- ------------------------------------------------------------------
-- Daily reset and rate limit
-- ------------------------------------------------------------------

def twentyFourHoursMs : Int := 24 * 60 * 60 * 1000

/-- The `updatePayload` built by `resetDailyLimitsIfExpired`: which of
the two daily counters are included (each included counter is set
to 0). -/
structure ResetPatch where
  ads : Bool
  spins : Bool
deriving DecidableEq

/-- The payload `resetDailyLimitsIfExpired` would patch for user `u` at
time `now`: a counter is included exactly when the 24-hour lapse check
fires and that counter is non-zero. -/
def resetUpdatePayload (now : Int) (u : UserRec) : ResetPatch :=
  if now - lastActivityMs u > twentyFourHoursMs then
    { ads := decide (0 < u.ads_watched_today),
      spins := decide (0 < u.spins_today) }
  else
    { ads := false, spins := false }

/-- The PATCH is issued only when the payload is non-empty. -/
def resetIssuesPatch (p : ResetPatch) : Bool := p.ads || p.spins

/-- Applying the reset payload to a user row. -/
def applyResetPatch (p : ResetPatch) (u : UserRec) : UserRec :=
  { u with
    ads_watched_today := if p.ads then 0 else u.ads_watched_today,
    spins_today := if p.spins then 0 else u.spins_today }

/-- `resetDailyLimitsIfExpired(userId)`: reads the user, zeroes any
non-zero daily counters in a single PATCH when more than 24 hours
passed since `last_activity`.  Does not touch `last_activity`. -/
def resetDailyLimitsIfExpired (now : Int) (db : DB) (uid : Nat) : DB :=
  match findUser db.users uid with
  | none => db
  | some u =>
      let p := resetUpdatePayload now u
      if resetIssuesPatch p then
        { db with users := updateUser db.users uid (applyResetPatch p) }
      else db

/-- Result of `checkRateLimit`. -/
structure RateResult where
  ok : Bool
  message : String
  remainingTime : Int
deriving DecidableEq

/-- `Math.ceil(x / 1000)` for an integer number of milliseconds. -/
def ceilSeconds (x : Int) : Int := (x + 999) / 1000

/-- `checkRateLimit(userId)`: denies when less than
`MIN_TIME_BETWEEN_ACTIONS_MS` elapsed since `last_activity`, surfacing
the remaining wait time; fails open when the user row is absent. -/
def checkRateLimit (now : Int) (db : DB) (uid : Nat) : RateResult :=
  match findUser db.users uid with
  | none => { ok := true, message := "", remainingTime := 0 }
  | some u =>
      let timeElapsed := now - lastActivityMs u
      if timeElapsed < MIN_TIME_BETWEEN_ACTIONS_MS then
        let remainingTime := MIN_TIME_BETWEEN_ACTIONS_MS - timeElapsed
        { ok := false,
          message := "Rate limit exceeded. Please wait " ++
            toString (ceilSeconds remainingTime) ++
            " seconds before the next action.",
          remainingTime := remainingTime }
      else
        { ok := true, message := "", remainingTime := 0 }

-- ------------------------------------------------------------------
-- Reward handlers
-- ------------------------------------------------------------------

/-- `handleRegister`: insert a fresh user with zero balance and
counters when absent; reject an existing banned user. -/
def handleRegister (now : Int) (db : DB) (uid : Nat) (refBy : Option Nat) :
    Resp × DB :=
  match findUser db.users uid with
  | none =>
      (.success (.ack "User registered or already exists."),
       { db with users := db.users ++
          [{ id := uid, balance := .num 0, ads_watched_today := 0,
             spins_today := 0, ref_by := refBy, last_activity := some now,
             is_banned := false }] })
  | some u =>
      if u.is_banned then (.err "User is banned." 403, db)
      else (.success (.ack "User registered or already exists."), db)

/-- `handleWatchAd`: consume the action token, run the daily reset,
load the user, check banned / rate limit / daily ad cap, then grant
`REWARD_PER_AD` and bump `ads_watched_today`, updating `last_activity`
in the same PATCH. -/
def handleWatchAd (now : Int) (db : DB) (uid : Nat) (actionId : Option Nat) :
    Resp × DB :=
  match validateAndUseActionId now db.temp_actions uid actionId "watchAd" with
  | (.rejected msg st, tokens2) => (.err msg st, { db with temp_actions := tokens2 })
  | (.accepted, tokens2) =>
      let db2 := resetDailyLimitsIfExpired now { db with temp_actions := tokens2 } uid
      match findUser db2.users uid with
      | none => (.err "User not found." 404, db2)
      | some user =>
          if user.is_banned then (.err "User is banned." 403, db2)
          else
            let rateLimitResult := checkRateLimit now db2 uid
            if !rateLimitResult.ok then
              (.err rateLimitResult.message 429, db2)
            else if DAILY_MAX_ADS ≤ user.ads_watched_today then
              (.err ("Daily ad limit (" ++ toString DAILY_MAX_ADS ++ ") reached.") 403, db2)
            else
              let newBalance := user.balance.add (.num REWARD_PER_AD)
              let newAdsCount := user.ads_watched_today + 1
              (.success (.watchAd newBalance (.num REWARD_PER_AD) newAdsCount),
               { db2 with users := updateUser db2.users uid (fun u =>
                  { u with balance := newBalance,
                           ads_watched_today := newAdsCount,
                           last_activity := some now }) })

/-- `handleSpin`: consume the action token, run the daily reset, load
the user, check banned / rate limit / daily spin cap, then bump
`spins_today` and `last_activity`. -/
def handleSpin (now : Int) (db : DB) (uid : Nat) (actionId : Option Nat) :
    Resp × DB :=
  match validateAndUseActionId now db.temp_actions uid actionId "spin" with
  | (.rejected msg st, tokens2) => (.err msg st, { db with temp_actions := tokens2 })
  | (.accepted, tokens2) =>
      let db2 := resetDailyLimitsIfExpired now { db with temp_actions := tokens2 } uid
      match findUser db2.users uid with
      | none => (.err "User not found." 404, db2)
      | some user =>
          if user.is_banned then (.err "User is banned." 403, db2)
          else
            let rateLimitResult := checkRateLimit now db2 uid
            if !rateLimitResult.ok then
              (.err rateLimitResult.message 429, db2)
            else if DAILY_MAX_SPINS ≤ user.spins_today then
              (.err ("Daily spin limit (" ++ toString DAILY_MAX_SPINS ++ ") reached.") 403, db2)
            else
              let newSpinsCount := user.spins_today + 1
              (.success (.spinCount newSpinsCount),
               { db2 with users := updateUser db2.users uid (fun u =>
                  { u with spins_today := newSpinsCount,
                           last_activity := some now }) })

/-- `handleSpinResult`: the server draws the prize itself
(`calculateRandomSpinPrize`, with the `Math.random()` value `r` passed
explicitly), adds it to the balance and appends a spin record. -/
def handleSpinResult (db : DB) (uid : Nat) (r : ℚ) : Resp × DB :=
  let drawn := calculateRandomSpinPrize r
  match findUser db.users uid with
  | none => (.err "User not found." 404, db)
  | some u =>
      if u.is_banned then (.err "User is banned." 403, db)
      else
        let newBalance := u.balance.add (.num (drawn.prize : ℚ))
        (.success (.spinResultData newBalance drawn.prize drawn.prizeIndex),
         { db with
           users := updateUser db.users uid (fun v => { v with balance := newBalance }),
           spin_results := db.spin_results ++ [{ user_id := uid, prize := drawn.prize }] })

/-- `handleCommission`: credits the referrer with
`REWARD_PER_AD * REFERRAL_COMMISSION_RATE` and appends a commission
record; always acknowledges (success) when data is missing or the
referrer is absent or banned. -/
def handleCommission (db : DB) (referrerId refereeId : Option Nat) :
    Resp × DB :=
  match referrerId, refereeId with
  | some rid, some eid =>
      (match findUser db.users rid with
       | none => (.success (.ack "Referrer not found, commission aborted."), db)
       | some u =>
           if u.is_banned then
             (.success (.ack "Referrer is banned, commission aborted."), db)
           else
             let commissionAmount : ℚ := REWARD_PER_AD * REFERRAL_COMMISSION_RATE
             let newBalance := u.balance.add (.num commissionAmount)
             (.success (.commissionBalance newBalance),
              { db with
                users := updateUser db.users rid (fun v => { v with balance := newBalance }),
                commission_history := db.commission_history ++
                  [{ referrer_id := rid, referee_id := eid,
                     amount := .num commissionAmount,
                     source_reward := .num REWARD_PER_AD }] }))
  | _, _ => (.success (.ack "Invalid commission data received but acknowledged."), db)

/-- `MIN_WITHDRAW` local constant of `handleWithdraw`. -/
def MIN_WITHDRAW : ℚ := 400

/-- `handleWithdraw`: consume the action token, then
`withdrawalAmount = parseFloat(amount)` (NaN when the field does not
parse, modelled by `JSNum.nan`), reject below-minimum amounts and
amounts above the balance, else debit the balance and insert a pending
withdrawal record.  Both guards use the JS `<` comparison, which is
false on NaN. -/
def handleWithdraw (now : Int) (db : DB) (uid : Nat) (binanceId : String)
    (amount : JSNum) (actionId : Option Nat) : Resp × DB :=
  match validateAndUseActionId now db.temp_actions uid actionId "withdraw" with
  | (.rejected msg st, tokens2) => (.err msg st, { db with temp_actions := tokens2 })
  | (.accepted, tokens2) =>
      let db1 : DB := { db with temp_actions := tokens2 }
      if amount.ltb (.num MIN_WITHDRAW) then
        (.err "Minimum withdrawal amount is 400 SHIB." 400, db1)
      else
        match findUser db1.users uid with
        | none => (.err "User not found." 404, db1)
        | some user =>
            if user.is_banned then (.err "User is banned." 403, db1)
            else if user.balance.ltb amount then
              (.err "Insufficient balance." 400, db1)
            else
              let newBalance := user.balance.sub amount
              (.success (.withdrawBalance newBalance),
               { db1 with
                 users := updateUser db1.users uid (fun u => { u with balance := newBalance }),
                 withdrawals := db1.withdrawals ++
                   [{ user_id := uid, amount := amount,
                      binance_id := binanceId, status := "pending" }] })

/-- The state effect of steps 1-2 of `handleGetUserData`: first PATCH
`last_activity` to the current time (`nowPatch`), then run
`resetDailyLimitsIfExpired` (whose own `Date.now()` is `nowReset`, a
moment later in the same request).  Steps 3-5 of the handler only read
the store. -/
def handleGetUserDataStateEffect (nowPatch nowReset : Int) (db : DB)
    (uid : Nat) : DB :=
  let db1 : DB :=
    { db with users :=
        updateUser db.users uid (fun u => { u with last_activity := some nowPatch }) }
  resetDailyLimitsIfExpired nowReset db1 uid

-- ------------------------------------------------------------------
-- Session authentication and dispatch
-- ------------------------------------------------------------------

/-- The parsed fields of an `initData` payload after removing the
`hash` parameter: the supplied signature, the `auth_date` parameter (in
seconds), and the canonical sorted key=value data-check string. -/
structure InitDataParams where
  hash : Option String
  auth_date : Option Int
  dataCheckString : String
deriving DecidableEq

/-- `validateInitData`, parameterised by the HMAC-SHA256 primitive
`hmac key message`: absent payload or bot token, signature mismatch
against the key derived via the "WebAppData" domain constant, missing
`auth_date`, or `auth_date` older than 20 minutes all reject. -/
def validateInitData (hmac : String → String → String)
    (botToken : Option String) (now : Int)
    (initData : Option InitDataParams) : Bool :=
  match initData, botToken with
  | some d, some tok =>
      let secretKey := hmac "WebAppData" tok
      let calculatedHash := hmac secretKey d.dataCheckString
      if d.hash ≠ some calculatedHash then false
      else
        match d.auth_date with
        | none => false
        | some ad =>
            let authDate := ad * 1000
            if now - authDate > 1200 * 1000 then false else true
  | _, _ => false

/-- An inbound POST body, reduced to the fields the dispatcher
inspects.  `none` models an absent (or falsy) field. -/
structure RequestBody where
  type : Option String
  initData : Option InitDataParams
  user_id : Option Nat
deriving DecidableEq

/-- Dispatch outcome: an early rejection (sent before any handler
runs), or the named handler being invoked. -/
inductive DispatchOutcome where
  | earlyError (message : String) (status : Nat)
  | routed (handlerType : String)
  | unknownType (t : String)
deriving DecidableEq

/-- The body of `module.exports` from the point where the JSON body has
been parsed (method filtering and body parsing are transport concerns):
missing `type` check, the initData security gate (skipped exactly for
`commission`), the `user_id` presence check (also skipped for
`commission`), then the `switch` on `type`. -/
def dispatch (hmac : String → String → String) (botToken : Option String)
    (now : Int) (body : RequestBody) : DispatchOutcome :=
  match body.type with
  | none => .earlyError "Missing \"type\" field in the request body." 400
  | some t =>
      if t ≠ "commission" ∧
          (body.initData = none ∨
           validateInitData hmac botToken now body.initData = false) then
        .earlyError "Invalid or expired initData. Security check failed." 401
      else if body.user_id = none ∧ t ≠ "commission" then
        .earlyError "Missing user_id in the request body." 400
      else if t ∈ ["getUserData", "register", "watchAd", "commission", "spin",
                   "spinResult", "withdraw", "generateActionId"] then
        .routed t
      else
        .unknownType t

-- ------------------------------------------------------------------
-- Concrete fixtures used by the witnesses
-- ------------------------------------------------------------------

/-- A sample user: balance 10, 99 ads watched today, last activity at
time 0. -/
def sampleUserA : UserRec :=
  { id := 7, balance := .num 10, ads_watched_today := 99, spins_today := 0,
    last_activity := some 0, ref_by := none, is_banned := false }

/-- A watchAd action token for `sampleUserA`, issued at 99000 ms. -/
def sampleTokenWatch : TokenRec :=
  { id := 1, user_id := 7, action_id := 42, action_type := "watchAd",
    created_at := 99000 }

/-- A withdraw action token for `sampleUserA`, issued at 99000 ms. -/
def sampleTokenWithdraw : TokenRec :=
  { id := 2, user_id := 7, action_id := 43, action_type := "withdraw",
    created_at := 99000 }

/-- A sample store with one user and two pending action tokens. -/
def sampleDB : DB :=
  { users := [sampleUserA], temp_actions := [sampleTokenWatch, sampleTokenWithdraw],
    withdrawals := [], spin_results := [], commission_history := [] }

/-- A referrer with integer balance 0, for the commission analysis. -/
def zeroBalanceReferrer : UserRec :=
  { id := 11, balance := .num 0, ads_watched_today := 0, spins_today := 0,
    last_activity := some 0, ref_by := none, is_banned := false }

/-- A store holding only `zeroBalanceReferrer`. -/
def commissionDB : DB :=
  { users := [zeroBalanceReferrer], temp_actions := [], withdrawals := [],
    spin_results := [], commission_history := [] }

/-- A user with balance 500 for the withdraw analyses. -/
def richUser : UserRec :=
  { id := 1, balance := .num 500, ads_watched_today := 0, spins_today := 0,
    last_activity := some 0, ref_by := none, is_banned := false }

/-- A withdraw token for `richUser`, issued at time 0. -/
def richUserToken : TokenRec :=
  { id := 9, user_id := 1, action_id := 77, action_type := "withdraw",
    created_at := 0 }

/-- A store holding `richUser` and their withdraw token. -/
def richUserDB : DB :=
  { users := [richUser], temp_actions := [richUserToken], withdrawals := [],
    spin_results := [], commission_history := [] }

-- ------------------------------------------------------------------
-- Helper lemmas
-- ------------------------------------------------------------------

theorem mem_updateUser {users : List UserRec} {uid : Nat} {f : UserRec → UserRec}
    {v : UserRec} (hv : v ∈ updateUser users uid f) :
    ∃ w ∈ users, v = f w ∨ v = w := by
  simp only [updateUser, List.mem_map] at hv
  obtain ⟨w, hw, hval⟩ := hv
  refine ⟨w, hw, ?_⟩
  by_cases h : (w.id == uid) = true
  · left; rw [← hval, if_pos h]
  · right; rw [← hval, if_neg h]

theorem findUser_mem {users : List UserRec} {uid : Nat} {u : UserRec}
    (h : findUser users uid = some u) : u ∈ users ∧ u.id = uid := by
  unfold findUser at h
  have hmem : u ∈ users.filter (fun w => w.id == uid) :=
    List.mem_of_mem_head? (by simp [h])
  exact ⟨List.mem_of_mem_filter hmem, by
    have := List.of_mem_filter hmem
    exact beq_iff_eq.mp this⟩

theorem findUser_updateUser (users : List UserRec) (uid : Nat)
    (f : UserRec → UserRec) (hf : ∀ u, (f u).id = u.id) :
    findUser (updateUser users uid f) uid = (findUser users uid).map f := by
  induction users with
  | nil => rfl
  | cons u us ih =>
      by_cases h : (u.id == uid) = true
      · have hfu : ((f u).id == uid) = true := by rw [hf u]; exact h
        simp only [updateUser, List.map_cons, findUser, List.filter_cons,
          if_pos h, if_pos hfu] at *
        simp [List.head?]
      · simp only [updateUser, List.map_cons, findUser, List.filter_cons,
          if_neg h] at *
        exact ih

theorem resetDailyLimitsIfExpired_noop (now : Int) (db : DB) (uid : Nat)
    (u : UserRec) (hu : findUser db.users uid = some u)
    (hl : now - lastActivityMs u ≤ twentyFourHoursMs) :
    resetDailyLimitsIfExpired now db uid = db := by
  have hp : resetUpdatePayload now u = { ads := false, spins := false } := by
    unfold resetUpdatePayload
    rw [if_neg (not_lt.mpr hl)]
  simp only [resetDailyLimitsIfExpired, hu, hp]
  rfl

theorem checkRateLimit_pass (now : Int) (db : DB) (uid : Nat) (u : UserRec)
    (hu : findUser db.users uid = some u)
    (h : MIN_TIME_BETWEEN_ACTIONS_MS ≤ now - lastActivityMs u) :
    checkRateLimit now db uid = { ok := true, message := "", remainingTime := 0 } := by
  unfold checkRateLimit
  rw [hu]
  simp only [if_neg (not_lt.mpr h)]

theorem checkRateLimit_deny (now : Int) (db : DB) (uid : Nat) (u : UserRec)
    (hu : findUser db.users uid = some u)
    (h : now - lastActivityMs u < MIN_TIME_BETWEEN_ACTIONS_MS) :
    checkRateLimit now db uid =
      { ok := false,
        message := "Rate limit exceeded. Please wait " ++
          toString (ceilSeconds (MIN_TIME_BETWEEN_ACTIONS_MS - (now - lastActivityMs u))) ++
          " seconds before the next action.",
        remainingTime := MIN_TIME_BETWEEN_ACTIONS_MS - (now - lastActivityMs u) } := by
  unfold checkRateLimit
  rw [hu]
  simp only [if_pos h]

-- ------------------------------------------------------------------
-- Claim theorems
-- ------------------------------------------------------------------

/-- C1: the action-token consume operation `validateAndUseActionId`
rejects with 409 when no matching (user, kind, value) record exists,
deletes the record and rejects with 408 when the matching record is
older than the 60-second expiry window, deletes the record and accepts
when it is fresh; consequently (when the store holds at most one record
for the presented value, as issuance guarantees) a value accepted once
is rejected with 409 on its second presentation. -/
theorem c1_consume_token_spec (now now2 : Int) (tokens : List TokenRec)
    (uid aid : Nat) (atype : String) :
    (findToken tokens uid aid atype = none →
      validateAndUseActionId now tokens uid (some aid) atype =
        (.rejected "Invalid or previously used Server Token (Action ID)." 409, tokens))
    ∧ (∀ rec, findToken tokens uid aid atype = some rec →
        now - rec.created_at > ACTION_ID_EXPIRY_MS →
        validateAndUseActionId now tokens uid (some aid) atype =
          (.rejected "Server Token (Action ID) expired. Please try again." 408,
            deleteTokenById tokens rec.id) ∧
        rec ∉ deleteTokenById tokens rec.id)
    ∧ (∀ rec, findToken tokens uid aid atype = some rec →
        ¬(now - rec.created_at > ACTION_ID_EXPIRY_MS) →
        validateAndUseActionId now tokens uid (some aid) atype =
          (.accepted, deleteTokenById tokens rec.id))
    ∧ (∀ rec, findToken tokens uid aid atype = some rec →
        ¬(now - rec.created_at > ACTION_ID_EXPIRY_MS) →
        (∀ t ∈ tokens, t.user_id = uid → t.action_id = aid →
          t.action_type = atype → t.id = rec.id) →
        validateAndUseActionId now2
            (validateAndUseActionId now tokens uid (some aid) atype).2
            uid (some aid) atype =
          (.rejected "Invalid or previously used Server Token (Action ID)." 409,
            (validateAndUseActionId now tokens uid (some aid) atype).2)) := by
  refine ⟨?_, ?_, ?_, ?_⟩
  · intro hnone
    simp only [validateAndUseActionId, hnone]
  · intro rec hrec hexp
    constructor
    · simp only [validateAndUseActionId, hrec, if_pos hexp]
    · intro hmem
      have := List.of_mem_filter hmem
      simp at this
  · intro rec hrec hfresh
    simp only [validateAndUseActionId, hrec, if_neg hfresh]
  · intro rec hrec hfresh huniq
    have hfirst : validateAndUseActionId now tokens uid (some aid) atype =
        (.accepted, deleteTokenById tokens rec.id) := by
      simp only [validateAndUseActionId, hrec, if_neg hfresh]
    rw [hfirst]
    have hnone : findToken (deleteTokenById tokens rec.id) uid aid atype = none := by
      unfold findToken
      rw [List.head?_eq_none_iff, List.filter_eq_nil_iff]
      intro t ht
      have htok : t ∈ tokens := List.mem_of_mem_filter ht
      have hkeep := List.of_mem_filter ht
      intro hmatch
      simp only [Bool.and_eq_true, beq_iff_eq] at hmatch
      have hid : t.id = rec.id := huniq t htok hmatch.1.1 hmatch.1.2 hmatch.2
      simp [hid] at hkeep
    simp only [validateAndUseActionId, hnone]

/-- C1 witness: a concrete fresh token is accepted once and its second
presentation is rejected with 409. -/
theorem c1_consume_token_witness :
    (validateAndUseActionId 100000 sampleDB.temp_actions 7 (some 42) "watchAd").1 =
      .accepted ∧
    validateAndUseActionId 100000
        (validateAndUseActionId 100000 sampleDB.temp_actions 7 (some 42) "watchAd").2
        7 (some 42) "watchAd" =
      (.rejected "Invalid or previously used Server Token (Action ID)." 409,
        (validateAndUseActionId 100000 sampleDB.temp_actions 7 (some 42) "watchAd").2) := by
  have h := c1_consume_token_spec 100000 100000 sampleDB.temp_actions 7 42 "watchAd"
  refine ⟨?_, ?_⟩
  · have := h.2.2.1 sampleTokenWatch (by decide) (by decide)
    rw [this]
  · exact h.2.2.2 sampleTokenWatch (by decide) (by decide) (by decide)

/-- C2: a valid watch-ad grant (user exists, not banned, token
consumed, rate check passed, under the daily cap) responds and stores
new_balance = old_balance + REWARD_PER_AD and
new_ads_count = old_ads_count + 1 with actual_reward = REWARD_PER_AD;
and a request by a user already at DAILY_MAX_ADS is rejected with 403
"Daily ad limit (100) reached." leaving the users table unchanged. -/
theorem c2_watchAd_grant_spec (now : Int) (db : DB) (uid aid : Nat)
    (tokens2 : List TokenRec) (user : UserRec)
    (htok : validateAndUseActionId now db.temp_actions uid (some aid) "watchAd" =
      (.accepted, tokens2))
    (huser : findUser db.users uid = some user)
    (hban : user.is_banned = false)
    (hlapse : now - lastActivityMs user ≤ twentyFourHoursMs)
    (hrate : MIN_TIME_BETWEEN_ACTIONS_MS ≤ now - lastActivityMs user) :
    (user.ads_watched_today < DAILY_MAX_ADS →
      handleWatchAd now db uid (some aid) =
        (.success (.watchAd (user.balance.add (.num REWARD_PER_AD))
            (.num REWARD_PER_AD) (user.ads_watched_today + 1)),
         { db with temp_actions := tokens2,
                   users := updateUser db.users uid (fun u =>
                     { u with balance := user.balance.add (.num REWARD_PER_AD),
                              ads_watched_today := user.ads_watched_today + 1,
                              last_activity := some now }) }))
    ∧ (user.ads_watched_today = DAILY_MAX_ADS →
       handleWatchAd now db uid (some aid) =
         (.err "Daily ad limit (100) reached." 403,
          { db with temp_actions := tokens2 })) := by
  have hreset : resetDailyLimitsIfExpired now { db with temp_actions := tokens2 } uid =
      { db with temp_actions := tokens2 } :=
    resetDailyLimitsIfExpired_noop now _ uid user huser hlapse
  have hrl := checkRateLimit_pass now { db with temp_actions := tokens2 } uid user huser hrate
  constructor
  · intro hcap
    simp only [handleWatchAd, htok, hreset, huser, hban, hrl, Bool.false_eq_true,
      if_false, Bool.not_true, if_neg (not_le.mpr hcap)]
  · intro hcap
    have hge : DAILY_MAX_ADS ≤ user.ads_watched_today := hcap ▸ le_refl _
    simp only [handleWatchAd, htok, hreset, huser, hban, hrl, Bool.false_eq_true,
      if_false, Bool.not_true, if_pos hge]
    rfl

/-- C2 witness: the user with balance 10 and ads_watched_today 99
watching one more ad with a valid token receives new_balance 13,
actual_reward 3, new_ads_count 100. -/
theorem c2_watchAd_grant_witness :
    (handleWatchAd 100000 sampleDB 7 (some 42)).1 =
      .success (.watchAd (.num 13) (.num 3) 100) := by
  have h := (c2_watchAd_grant_spec 100000 sampleDB 7 42 [sampleTokenWithdraw]
    sampleUserA (by decide) (by decide) (by decide) (by decide) (by decide)).1
    (by decide)
  rw [h]
  simp only [sampleUserA, JSNum.add]
  norm_num [REWARD_PER_AD]

/-- C6: with less than MIN_TIME_BETWEEN_ACTIONS_MS (3000 ms) elapsed
since last_activity, the rate check denies with remainingTime equal to
the interval minus the elapsed time, and the watch-ad and spin handlers
reject with 429 carrying the remaining-wait message; with at least the
interval elapsed the rate check passes. -/
theorem c6_rate_limit_spec (now : Int) (db : DB) (uid aid aidS : Nat)
    (tokens2 tokens2s : List TokenRec) (user : UserRec)
    (huser : findUser db.users uid = some user)
    (hban : user.is_banned = false)
    (hlapse : now - lastActivityMs user ≤ twentyFourHoursMs) :
    (now - lastActivityMs user < MIN_TIME_BETWEEN_ACTIONS_MS →
      (checkRateLimit now db uid).ok = false ∧
      (checkRateLimit now db uid).remainingTime =
        MIN_TIME_BETWEEN_ACTIONS_MS - (now - lastActivityMs user))
    ∧ (MIN_TIME_BETWEEN_ACTIONS_MS ≤ now - lastActivityMs user →
        (checkRateLimit now db uid).ok = true)
    ∧ (validateAndUseActionId now db.temp_actions uid (some aid) "watchAd" =
          (.accepted, tokens2) →
        now - lastActivityMs user < MIN_TIME_BETWEEN_ACTIONS_MS →
        handleWatchAd now db uid (some aid) =
          (.err ("Rate limit exceeded. Please wait " ++
              toString (ceilSeconds
                (MIN_TIME_BETWEEN_ACTIONS_MS - (now - lastActivityMs user))) ++
              " seconds before the next action.") 429,
           { db with temp_actions := tokens2 }))
    ∧ (validateAndUseActionId now db.temp_actions uid (some aidS) "spin" =
          (.accepted, tokens2s) →
        now - lastActivityMs user < MIN_TIME_BETWEEN_ACTIONS_MS →
        handleSpin now db uid (some aidS) =
          (.err ("Rate limit exceeded. Please wait " ++
              toString (ceilSeconds
                (MIN_TIME_BETWEEN_ACTIONS_MS - (now - lastActivityMs user))) ++
              " seconds before the next action.") 429,
           { db with temp_actions := tokens2s })) := by
  refine ⟨?_, ?_, ?_, ?_⟩
  · intro helapsed
    rw [checkRateLimit_deny now db uid user huser helapsed]
    exact ⟨rfl, rfl⟩
  · intro helapsed
    rw [checkRateLimit_pass now db uid user huser helapsed]
  · intro htok helapsed
    have hreset : resetDailyLimitsIfExpired now { db with temp_actions := tokens2 } uid =
        { db with temp_actions := tokens2 } :=
      resetDailyLimitsIfExpired_noop now _ uid user huser hlapse
    have hrl := checkRateLimit_deny now { db with temp_actions := tokens2 } uid user
      huser helapsed
    simp only [handleWatchAd, htok, hreset, huser, hban, hrl, Bool.false_eq_true,
      if_false, Bool.not_false, if_true]
  · intro htok helapsed
    have hreset : resetDailyLimitsIfExpired now { db with temp_actions := tokens2s } uid =
        { db with temp_actions := tokens2s } :=
      resetDailyLimitsIfExpired_noop now _ uid user huser hlapse
    have hrl := checkRateLimit_deny now { db with temp_actions := tokens2s } uid user
      huser helapsed
    simp only [handleSpin, htok, hreset, huser, hban, hrl, Bool.false_eq_true,
      if_false, Bool.not_false, if_true]

/-- C6 witness: a watch-ad attempt 1000 ms after the last activity is
rejected with 429 and a 2-second remaining wait (3000 - 1000 = 2000 ms,
surfaced as 2 seconds). -/
theorem c6_rate_limit_witness :
    (checkRateLimit 1000 sampleDB 7).remainingTime = 2000 ∧
    (handleWatchAd 1000 sampleDB 7 (some 42)).1 =
      .err "Rate limit exceeded. Please wait 2 seconds before the next action." 429 := by
  have h := c6_rate_limit_spec 1000 sampleDB 7 42 42 [sampleTokenWithdraw]
    [sampleTokenWithdraw] sampleUserA (by decide) (by decide) (by decide)
  refine ⟨(h.1 (by decide)).2, ?_⟩
  rw [h.2.2.1 (by decide) (by decide)]
  rfl

/-- C4: the daily counters are zeroed (via one patch naming only the
non-zero counters) exactly when more than 24 hours elapsed since
last_activity at the time the check reads the row and a counter is
non-zero; after a reset the immediately following check patches nothing
(the counters are already zero); and on the getUserData path, which
patches last_activity to the current time before running the check, the
check consequently issues no patch within the same request. -/
theorem c4_daily_reset_spec (now now2 : Int) (u : UserRec) (db db2 : DB)
    (uid uid2 : Nat) (nowPatch nowReset : Int) :
    (resetIssuesPatch (resetUpdatePayload now u) = true ↔
      (now - lastActivityMs u > twentyFourHoursMs ∧
       (0 < u.ads_watched_today ∨ 0 < u.spins_today)))
    ∧ ((resetUpdatePayload now u).ads = true → 0 < u.ads_watched_today)
    ∧ ((resetUpdatePayload now u).spins = true → 0 < u.spins_today)
    ∧ (findUser db.users uid = some u →
        resetIssuesPatch (resetUpdatePayload now u) = false →
        resetDailyLimitsIfExpired now db uid = db)
    ∧ (findUser db.users uid = some u →
        resetIssuesPatch (resetUpdatePayload now u) = true →
        (resetDailyLimitsIfExpired now db uid).users =
          updateUser db.users uid (applyResetPatch (resetUpdatePayload now u)))
    ∧ (resetIssuesPatch (resetUpdatePayload now u) = true →
        resetIssuesPatch
          (resetUpdatePayload now2 (applyResetPatch (resetUpdatePayload now u) u)) = false)
    ∧ (nowReset - nowPatch ≤ twentyFourHoursMs →
        handleGetUserDataStateEffect nowPatch nowReset db2 uid2 =
          { db2 with users :=
              updateUser db2.users uid2 (fun w => { w with last_activity := some nowPatch }) }) := by
  refine ⟨?_, ?_, ?_, ?_, ?_, ?_, ?_⟩
  · by_cases h : now - lastActivityMs u > twentyFourHoursMs <;>
      simp [resetUpdatePayload, resetIssuesPatch, h]
  · intro h
    by_cases ht : now - lastActivityMs u > twentyFourHoursMs
    · simp [resetUpdatePayload, ht] at h
      exact h
    · simp [resetUpdatePayload, ht] at h
  · intro h
    by_cases ht : now - lastActivityMs u > twentyFourHoursMs
    · simp [resetUpdatePayload, ht] at h
      exact h
    · simp [resetUpdatePayload, ht] at h
  · intro hu hnp
    simp only [resetDailyLimitsIfExpired, hu, hnp, Bool.false_eq_true, if_false]
  · intro hu hp
    simp only [resetDailyLimitsIfExpired, hu, hp, if_true]
  · intro hfired
    by_cases ht : now - lastActivityMs u > twentyFourHoursMs
    · have hads : (applyResetPatch (resetUpdatePayload now u) u).ads_watched_today = 0 := by
        simp only [resetUpdatePayload, ht, if_true, applyResetPatch]
        by_cases ha : 0 < u.ads_watched_today
        · simp [ha]
        · simp [ha]
          omega
      have hspins : (applyResetPatch (resetUpdatePayload now u) u).spins_today = 0 := by
        simp only [resetUpdatePayload, ht, if_true, applyResetPatch]
        by_cases hs : 0 < u.spins_today
        · simp [hs]
        · simp [hs]
          omega
      generalize hG : applyResetPatch (resetUpdatePayload now u) u = uR at hads hspins ⊢
      by_cases ht2 : now2 - lastActivityMs uR > twentyFourHoursMs <;>
        simp [resetUpdatePayload, resetIssuesPatch, ht2, hads, hspins]
    · simp [resetUpdatePayload, resetIssuesPatch, ht] at hfired
  · intro hwin
    unfold handleGetUserDataStateEffect
    have hid : ∀ w : UserRec,
        ({ w with last_activity := some nowPatch } : UserRec).id = w.id := fun w => rfl
    have hfu := findUser_updateUser db2.users uid2
      (fun w => { w with last_activity := some nowPatch }) hid
    cases hdb : findUser db2.users uid2 with
    | none =>
        rw [hdb] at hfu
        simp only [resetDailyLimitsIfExpired, hfu, Option.map_none']
    | some w =>
        rw [hdb] at hfu
        refine resetDailyLimitsIfExpired_noop nowReset _ uid2
          ({ w with last_activity := some nowPatch }) hfu ?_
        simpa [lastActivityMs] using hwin

/-- C4 witness: a user inactive for 25 hours with 99 ads watched is
reset (patching only the ads counter), the immediately following check
patches nothing, and the getUserData path (which first patches
last_activity) leaves the counters untouched. -/
theorem c4_daily_reset_witness :
    resetIssuesPatch (resetUpdatePayload 90000000 sampleUserA) = true
    ∧ resetIssuesPatch (resetUpdatePayload 90000001
        (applyResetPatch (resetUpdatePayload 90000000 sampleUserA) sampleUserA)) = false
    ∧ (handleGetUserDataStateEffect 90000000 90000001 sampleDB 7).users =
        [{ sampleUserA with last_activity := some 90000000 }] := by
  have h := c4_daily_reset_spec 90000000 90000001 sampleUserA sampleDB sampleDB 7 7
    90000000 90000001
  refine ⟨h.1.mpr (by decide), h.2.2.2.2.2.1 (h.1.mpr (by decide)), ?_⟩
  rw [h.2.2.2.2.2.2 (by decide)]
  decide

/-- C5: the session gate in the dispatcher rejects with 401, before any
handler is routed, every request whose type is not commission when
initData is absent or fails validation (which in turn fails on a
signature mismatch against the HMAC derived via the WebAppData domain
constant, on a missing auth_date, and on an auth_date more than 20
minutes old); a commission request is routed without this check. -/
theorem c5_session_gate_spec (hmac : String → String → String)
    (botToken : Option String) (now : Int) (body : RequestBody) (t : String)
    (d : InitDataParams) (tk : String) (ad : Int) :
    (body.type = some t → t ≠ "commission" →
      (body.initData = none ∨ validateInitData hmac botToken now body.initData = false) →
      dispatch hmac botToken now body =
        .earlyError "Invalid or expired initData. Security check failed." 401)
    ∧ (body.type = some "commission" →
        dispatch hmac botToken now body = .routed "commission")
    ∧ (d.hash ≠ some (hmac (hmac "WebAppData" tk) d.dataCheckString) →
        validateInitData hmac (some tk) now (some d) = false)
    ∧ (d.auth_date = none → validateInitData hmac (some tk) now (some d) = false)
    ∧ (d.auth_date = some ad → now - ad * 1000 > 1200 * 1000 →
        validateInitData hmac (some tk) now (some d) = false)
    ∧ (validateInitData hmac botToken now none = false) := by
  refine ⟨?_, ?_, ?_, ?_, ?_, ?_⟩
  · intro ht hne hbad
    simp only [dispatch, ht, if_pos (And.intro hne hbad)]
  · intro ht
    have h1 : ¬("commission" ≠ "commission" ∧
        (body.initData = none ∨
         validateInitData hmac botToken now body.initData = false)) :=
      fun h => h.1 rfl
    have h2 : ¬(body.user_id = none ∧ "commission" ≠ "commission") :=
      fun h => h.2 rfl
    simp only [dispatch, ht, if_neg h1, if_neg h2]
    rfl
  · intro hne
    simp only [validateInitData, if_pos hne]
  · intro hauth
    by_cases hne : d.hash ≠ some (hmac (hmac "WebAppData" tk) d.dataCheckString)
    · simp only [validateInitData, if_pos hne]
    · simp only [validateInitData, if_neg hne, hauth]
  · intro hauth hold
    by_cases hne : d.hash ≠ some (hmac (hmac "WebAppData" tk) d.dataCheckString)
    · simp only [validateInitData, if_pos hne]
    · simp only [validateInitData, if_neg hne, hauth, if_pos hold]
  · cases botToken <;> rfl

/-- C5 witness: a watchAd request with no initData is rejected 401
before routing, and a commission request with no initData is routed to
the commission handler. -/
theorem c5_session_gate_witness :
    dispatch (fun k m => k ++ "|" ++ m) (some "token") 0
        { type := some "watchAd", initData := none, user_id := some 7 } =
      .earlyError "Invalid or expired initData. Security check failed." 401
    ∧ dispatch (fun k m => k ++ "|" ++ m) (some "token") 0
        { type := some "commission", initData := none, user_id := none } =
      .routed "commission" := by
  have h1 := c5_session_gate_spec (fun k m => k ++ "|" ++ m) (some "token") 0
    { type := some "watchAd", initData := none, user_id := some 7 } "watchAd"
    { hash := none, auth_date := none, dataCheckString := "" } "token" 0
  have h2 := c5_session_gate_spec (fun k m => k ++ "|" ++ m) (some "token") 0
    { type := some "commission", initData := none, user_id := none } "commission"
    { hash := none, auth_date := none, dataCheckString := "" } "token" 0
  exact ⟨h1.1 rfl (by decide) (Or.inl rfl), h2.2.1 rfl⟩

/-- C7: a withdraw request with a numeric amount below the 400 minimum,
or exceeding the user's balance, is rejected and neither changes the
users table nor inserts a withdrawal record. -/
theorem c7_withdraw_reject_spec (now : Int) (db : DB) (uid : Nat)
    (bId : String) (a : ℚ) (aid : Nat) (tokens2 : List TokenRec)
    (user : UserRec) (b : ℚ)
    (htok : validateAndUseActionId now db.temp_actions uid (some aid) "withdraw" =
      (.accepted, tokens2)) :
    (a < 400 →
      handleWithdraw now db uid bId (.num a) (some aid) =
        (.err "Minimum withdrawal amount is 400 SHIB." 400,
         { db with temp_actions := tokens2 }))
    ∧ (400 ≤ a → findUser db.users uid = some user → user.is_banned = false →
        user.balance = .num b → b < a →
        handleWithdraw now db uid bId (.num a) (some aid) =
          (.err "Insufficient balance." 400,
           { db with temp_actions := tokens2 })) := by
  constructor
  · intro hlt
    have hcmp : (JSNum.num a).ltb (.num MIN_WITHDRAW) = true := by
      simp [JSNum.ltb, MIN_WITHDRAW, hlt]
    simp only [handleWithdraw, htok, hcmp, if_true]
  · intro hge huser hban hb hins
    have hcmp : (JSNum.num a).ltb (.num MIN_WITHDRAW) = false := by
      simp [JSNum.ltb, MIN_WITHDRAW, not_lt.mpr hge]
    have hbal : user.balance.ltb (.num a) = true := by
      simp [hb, JSNum.ltb, hins]
    simp only [handleWithdraw, htok, hcmp, Bool.false_eq_true, if_false, huser,
      hban, hbal, if_true]

/-- C7 witness: on a balance of 500, withdrawing 100 is rejected for
the 400 minimum and withdrawing 600 for insufficient balance, in both
cases leaving the users table unchanged and inserting no withdrawal. -/
theorem c7_withdraw_reject_witness :
    handleWithdraw 1000 richUserDB 1 "123456789" (.num 100) (some 77) =
      (.err "Minimum withdrawal amount is 400 SHIB." 400,
       { richUserDB with temp_actions := [] })
    ∧ handleWithdraw 1000 richUserDB 1 "123456789" (.num 600) (some 77) =
      (.err "Insufficient balance." 400,
       { richUserDB with temp_actions := [] }) := by
  constructor
  · exact (c7_withdraw_reject_spec 1000 richUserDB 1 "123456789" 100 77 []
      richUser 500 (by decide)).1 (by norm_num)
  · exact (c7_withdraw_reject_spec 1000 richUserDB 1 "123456789" 600 77 []
      richUser 500 (by decide)).2 (by norm_num) (by decide) (by decide) rfl
      (by norm_num)

/-- C8: issuing an action token is idempotent over an unexpired token
(the existing value is returned and the table unchanged); an expired
leftover is deleted and a fresh token with the drawn random value and
the current timestamp is inserted, likewise when no token exists; and
the random value is drawn from the full 2^(8*32)-element space of
crypto.randomBytes(32), which is at least 2^128 large. -/
theorem c8_generateActionId_spec (now : Int) (tokens : List TokenRec)
    (uid : Nat) (atype : String) (nextId rnd : Nat) (t0 : TokenRec) :
    ((findTokensByType tokens uid atype).head? = some t0 →
      now - t0.created_at < ACTION_ID_EXPIRY_MS →
      handleGenerateActionId now tokens uid (some atype) nextId rnd =
        (.success (.actionId t0.action_id), tokens))
    ∧ ((findTokensByType tokens uid atype).head? = some t0 →
        ¬(now - t0.created_at < ACTION_ID_EXPIRY_MS) →
        handleGenerateActionId now tokens uid (some atype) nextId rnd =
          (.success (.actionId (generateStrongId rnd)),
           tokens.filter (fun t => !(t.user_id == uid && t.action_type == atype)) ++
             [{ id := nextId, user_id := uid, action_id := generateStrongId rnd,
                action_type := atype, created_at := now }]))
    ∧ ((findTokensByType tokens uid atype).head? = none →
        handleGenerateActionId now tokens uid (some atype) nextId rnd =
          (.success (.actionId (generateStrongId rnd)),
           tokens ++ [{ id := nextId, user_id := uid,
                        action_id := generateStrongId rnd,
                        action_type := atype, created_at := now }]))
    ∧ (∀ v : Nat, v < 2 ^ (8 * 32) → generateStrongId v = v)
    ∧ (2 ^ 128 ≤ 2 ^ (8 * 32)) := by
  refine ⟨?_, ?_, ?_, ?_, ?_⟩
  · intro hhead hfresh
    simp only [handleGenerateActionId, hhead, if_pos hfresh]
  · intro hhead hstale
    simp only [handleGenerateActionId, hhead, if_neg hstale]
  · intro hhead
    simp only [handleGenerateActionId, hhead]
  · intro v hv
    exact Nat.mod_eq_of_lt hv
  · exact Nat.pow_le_pow_right (by norm_num) (by norm_num)

/-- C8 witness: re-issuing over a fresh token returns the same value 42
without inserting; issuing over an expired token deletes it and inserts
the freshly drawn value with the current timestamp. -/
theorem c8_generateActionId_witness :
    handleGenerateActionId 100000 [sampleTokenWatch] 7 (some "watchAd") 5 777 =
      (.success (.actionId 42), [sampleTokenWatch])
    ∧ handleGenerateActionId 200000 [sampleTokenWatch] 7 (some "watchAd") 5 777 =
      (.success (.actionId 777),
       [{ id := 5, user_id := 7, action_id := 777, action_type := "watchAd",
          created_at := 200000 }]) := by
  constructor
  · have h := (c8_generateActionId_spec 100000 [sampleTokenWatch] 7 "watchAd" 5 777
      sampleTokenWatch).1 (by decide) (by decide)
    rw [h]
    rfl
  · have h := (c8_generateActionId_spec 200000 [sampleTokenWatch] 7 "watchAd" 5 777
      sampleTokenWatch).2.1 (by decide) (by decide)
    rw [h]
    rfl

/-- C10: a withdraw request whose amount does not parse as a number
(parseFloat yields NaN) passes both the minimum-amount check and the
insufficient-balance check, because each JS comparison against NaN is
false, and the handler patches the user's balance to the non-numeric
NaN (and even records a NaN withdrawal) instead of rejecting. -/
theorem c10_withdraw_nan_spec :
    handleWithdraw 1000 richUserDB 1 "123456789" .nan (some 77) =
      (.success (.withdrawBalance .nan),
       { users := [{ richUser with balance := .nan }],
         temp_actions := [],
         withdrawals := [{ user_id := 1, amount := .nan,
                           binance_id := "123456789", status := "pending" }],
         spin_results := [], commission_history := [] })
    ∧ JSNum.nan.nonnegb = false ∧ JSNum.nan.isWholeb = false := by
  refine ⟨?_, rfl, rfl⟩
  rfl

/-- C9: for any Math.random() draw r in [0,1), the server-drawn prize
index is in range of the fixed sector table, the prize always equals
the sector entry at the returned index, the index is i exactly when r
falls in the length-1/5 interval [i/5, (i+1)/5) — so a uniform r gives
a uniform index — and for an existing non-banned user the handler
credits exactly the prize and appends a spin record carrying it. -/
theorem c9_spinResult_spec (r : ℚ) (db : DB) (uid : Nat) (u : UserRec)
    (hr0 : 0 ≤ r) (hr1 : r < 1) :
    ((calculateRandomSpinPrize r).prizeIndex < SPIN_SECTORS.length)
    ∧ ((calculateRandomSpinPrize r).prize =
        SPIN_SECTORS.getD (calculateRandomSpinPrize r).prizeIndex 0)
    ∧ (∀ i : Nat, i < SPIN_SECTORS.length →
        ((calculateRandomSpinPrize r).prizeIndex = i ↔
          (i : ℚ) / 5 ≤ r ∧ r < ((i : ℚ) + 1) / 5))
    ∧ (findUser db.users uid = some u → u.is_banned = false →
        handleSpinResult db uid r =
          (.success (.spinResultData
              (u.balance.add (.num ((calculateRandomSpinPrize r).prize : ℚ)))
              (calculateRandomSpinPrize r).prize
              (calculateRandomSpinPrize r).prizeIndex),
           { db with
             users := updateUser db.users uid (fun v =>
               { v with balance :=
                  u.balance.add (.num ((calculateRandomSpinPrize r).prize : ℚ)) }),
             spin_results := db.spin_results ++
               [{ user_id := uid, prize := (calculateRandomSpinPrize r).prize }] })) := by
  have hlen : (SPIN_SECTORS.length : ℚ) = 5 := by norm_num [SPIN_SECTORS]
  have hflo0 : 0 ≤ ⌊r * (SPIN_SECTORS.length : ℚ)⌋ := by
    refine Int.floor_nonneg.mpr ?_
    rw [hlen]
    positivity
  have hcast : ((⌊r * (SPIN_SECTORS.length : ℚ)⌋).toNat : ℤ) =
      ⌊r * (SPIN_SECTORS.length : ℚ)⌋ := Int.toNat_of_nonneg hflo0
  have hfloLt : ⌊r * (SPIN_SECTORS.length : ℚ)⌋ < 5 := by
    rw [hlen]
    refine Int.floor_lt.mpr ?_
    push_cast
    nlinarith
  have hIdx : (calculateRandomSpinPrize r).prizeIndex =
      (⌊r * (SPIN_SECTORS.length : ℚ)⌋).toNat := rfl
  refine ⟨?_, rfl, ?_, ?_⟩
  · rw [hIdx]
    show (⌊r * (SPIN_SECTORS.length : ℚ)⌋).toNat < 5
    omega
  · intro i hi
    rw [hIdx]
    constructor
    · intro h
      have hz : ⌊r * (SPIN_SECTORS.length : ℚ)⌋ = (i : ℤ) := by omega
      obtain ⟨h1, h2⟩ := Int.floor_eq_iff.mp hz
      rw [hlen] at h1 h2
      push_cast at h1 h2
      constructor
      · rw [div_le_iff₀ (by norm_num : (0:ℚ) < 5)]
        exact h1
      · rw [lt_div_iff₀ (by norm_num : (0:ℚ) < 5)]
        exact h2
    · rintro ⟨h1, h2⟩
      have h1q : (i : ℚ) ≤ r * 5 := (div_le_iff₀ (by norm_num : (0:ℚ) < 5)).mp h1
      have h2q : r * 5 < (i : ℚ) + 1 := (lt_div_iff₀ (by norm_num : (0:ℚ) < 5)).mp h2
      have hz : ⌊r * (SPIN_SECTORS.length : ℚ)⌋ = (i : ℤ) := by
        rw [hlen]
        refine Int.floor_eq_iff.mpr ⟨?_, ?_⟩
        · push_cast
          exact h1q
        · push_cast
          exact h2q
      omega
  · intro hu hban
    simp only [handleSpinResult, hu, hban, Bool.false_eq_true, if_false]

/-- C9 witness: the draw r = 7/10 lands on index 3 with prize 20 and
credits a balance of 500 to 520. -/
theorem c9_spinResult_witness :
    (calculateRandomSpinPrize (7/10)).prizeIndex = 3
    ∧ (calculateRandomSpinPrize (7/10)).prize = 20
    ∧ (handleSpinResult richUserDB 1 (7/10)).1 =
        .success (.spinResultData (.num 520) 20 3) := by
  have h := c9_spinResult_spec (7/10) richUserDB 1 richUser (by norm_num) (by norm_num)
  have hidx : (calculateRandomSpinPrize (7/10)).prizeIndex = 3 :=
    (h.2.2.1 3 (by norm_num [SPIN_SECTORS])).mpr ⟨by norm_num, by norm_num⟩
  have hpr : (calculateRandomSpinPrize (7/10)).prize = 20 := by
    rw [h.2.1, hidx]
    decide
  refine ⟨hidx, hpr, ?_⟩
  rw [h.2.2.2 (by decide) (by decide)]
  rw [hidx, hpr]
  norm_num [richUser, JSNum.add]

theorem den_one_add {q c : ℚ} (hq : q.den = 1) (hc : c.den = 1) :
    (q + c).den = 1 := by
  have h1 : ((q.num : ℤ) : ℚ) = q := Rat.coe_int_num_of_den_eq_one hq
  have h2 : ((c.num : ℤ) : ℚ) = c := Rat.coe_int_num_of_den_eq_one hc
  rw [← h1, ← h2, ← Int.cast_add]
  exact Rat.intCast_den _

theorem den_one_sub {q c : ℚ} (hq : q.den = 1) (hc : c.den = 1) :
    (q - c).den = 1 := by
  have h1 : ((q.num : ℤ) : ℚ) = q := Rat.coe_int_num_of_den_eq_one hq
  have h2 : ((c.num : ℤ) : ℚ) = c := Rat.coe_int_num_of_den_eq_one hc
  rw [← h1, ← h2, ← Int.cast_sub]
  exact Rat.intCast_den _

theorem nonnegb_add_num {x : JSNum} {c : ℚ} (hx : x.nonnegb = true) (hc : 0 ≤ c) :
    (x.add (.num c)).nonnegb = true := by
  cases x with
  | num q =>
      simp only [JSNum.nonnegb, decide_eq_true_eq] at hx
      simp only [JSNum.add, JSNum.nonnegb, decide_eq_true_eq]
      exact add_nonneg hx hc
  | nan => simp [JSNum.nonnegb] at hx

theorem isWholeb_add_num {x : JSNum} {c : ℚ} (hx : x.isWholeb = true)
    (hc : c.den = 1) : (x.add (.num c)).isWholeb = true := by
  cases x with
  | num q =>
      simp only [JSNum.isWholeb, beq_iff_eq] at hx
      simp only [JSNum.add, JSNum.isWholeb, beq_iff_eq]
      exact den_one_add hx hc
  | nan => simp [JSNum.isWholeb] at hx

theorem reset_users_balance (now : Int) (db : DB) (uid : Nat) (v : UserRec)
    (hv : v ∈ (resetDailyLimitsIfExpired now db uid).users) :
    ∃ w ∈ db.users, v.balance = w.balance := by
  unfold resetDailyLimitsIfExpired at hv
  split at hv
  · exact ⟨v, hv, rfl⟩
  · dsimp only at hv
    split at hv
    · obtain ⟨w, hw, hvw⟩ := mem_updateUser hv
      rcases hvw with h | h
      · refine ⟨w, hw, ?_⟩
        rw [h]
        rfl
      · exact ⟨w, hw, by rw [h]⟩
    · exact ⟨v, hv, rfl⟩

theorem register_balance_shape (now : Int) (db : DB) (uid : Nat)
    (refBy : Option Nat) (v : UserRec)
    (hv : v ∈ (handleRegister now db uid refBy).2.users) :
    (∃ w ∈ db.users, v.balance = w.balance) ∨ v.balance = .num 0 := by
  unfold handleRegister at hv
  split at hv
  · dsimp only at hv
    rcases List.mem_append.mp hv with h | h
    · exact Or.inl ⟨v, h, rfl⟩
    · simp only [List.mem_singleton] at h
      right
      rw [h]
  · split at hv
    · exact Or.inl ⟨v, hv, rfl⟩
    · exact Or.inl ⟨v, hv, rfl⟩

theorem spin_balance_shape (now : Int) (db : DB) (uid : Nat) (aid : Option Nat)
    (v : UserRec) (hv : v ∈ (handleSpin now db uid aid).2.users) :
    ∃ w ∈ db.users, v.balance = w.balance := by
  unfold handleSpin at hv
  split at hv
  · exact ⟨v, hv, rfl⟩
  · rename_i tokens2 heq
    dsimp only at hv
    split at hv
    · exact reset_users_balance now { db with temp_actions := tokens2 } uid v hv
    · rename_i user hfu
      split at hv
      · exact reset_users_balance now { db with temp_actions := tokens2 } uid v hv
      · split at hv
        · exact reset_users_balance now { db with temp_actions := tokens2 } uid v hv
        · split at hv
          · exact reset_users_balance now { db with temp_actions := tokens2 } uid v hv
          · obtain ⟨w, hw, hvw⟩ := mem_updateUser hv
            obtain ⟨w0, hw0, he⟩ :=
              reset_users_balance now { db with temp_actions := tokens2 } uid w hw
            rcases hvw with h | h
            · refine ⟨w0, hw0, ?_⟩
              rw [h]
              exact he
            · exact ⟨w0, hw0, by rw [h]; exact he⟩

theorem commission_balance_shape (db : DB) (rid eid : Nat) (v : UserRec)
    (hv : v ∈ (handleCommission db (some rid) (some eid)).2.users) :
    (∃ w ∈ db.users, v.balance = w.balance) ∨
    (∃ w ∈ db.users, v.balance =
      w.balance.add (.num (REWARD_PER_AD * REFERRAL_COMMISSION_RATE))) := by
  unfold handleCommission at hv
  dsimp only at hv
  split at hv
  · exact Or.inl ⟨v, hv, rfl⟩
  · rename_i u heq
    split at hv
    · exact Or.inl ⟨v, hv, rfl⟩
    · dsimp only at hv
      obtain ⟨w, hw, hvw⟩ := mem_updateUser hv
      rcases hvw with h | h
      · exact Or.inr ⟨u, (findUser_mem heq).1, by rw [h]⟩
      · exact Or.inl ⟨w, hw, by rw [h]⟩

theorem watchAd_balance_shape (now : Int) (db : DB) (uid : Nat)
    (aid : Option Nat) (v : UserRec)
    (hv : v ∈ (handleWatchAd now db uid aid).2.users) :
    (∃ w ∈ db.users, v.balance = w.balance) ∨
    (∃ w ∈ db.users, v.balance = w.balance.add (.num REWARD_PER_AD)) := by
  unfold handleWatchAd at hv
  split at hv
  · exact Or.inl ⟨v, hv, rfl⟩
  · rename_i tokens2 heq
    dsimp only at hv
    split at hv
    · exact Or.inl
        (reset_users_balance now { db with temp_actions := tokens2 } uid v hv)
    · rename_i user hfu
      split at hv
      · exact Or.inl
          (reset_users_balance now { db with temp_actions := tokens2 } uid v hv)
      · split at hv
        · exact Or.inl
            (reset_users_balance now { db with temp_actions := tokens2 } uid v hv)
        · split at hv
          · exact Or.inl
              (reset_users_balance now { db with temp_actions := tokens2 } uid v hv)
          · obtain ⟨w, hw, hvw⟩ := mem_updateUser hv
            obtain ⟨w0, hw0, he0⟩ :=
              reset_users_balance now { db with temp_actions := tokens2 } uid w hw
            rcases hvw with h | h
            · obtain ⟨wu, hwu, heu⟩ :=
                reset_users_balance now { db with temp_actions := tokens2 } uid user
                  ((findUser_mem hfu).1)
              refine Or.inr ⟨wu, hwu, ?_⟩
              rw [h]
              show user.balance.add (.num REWARD_PER_AD) = _
              rw [heu]
            · exact Or.inl ⟨w0, hw0, by rw [h]; exact he0⟩

theorem spinResult_balance_shape (db : DB) (uid : Nat) (r : ℚ) (v : UserRec)
    (hv : v ∈ (handleSpinResult db uid r).2.users) :
    (∃ w ∈ db.users, v.balance = w.balance) ∨
    (∃ w ∈ db.users, ∃ p : Nat, v.balance = w.balance.add (.num (p : ℚ))) := by
  unfold handleSpinResult at hv
  dsimp only at hv
  split at hv
  · exact Or.inl ⟨v, hv, rfl⟩
  · rename_i u heq
    split at hv
    · exact Or.inl ⟨v, hv, rfl⟩
    · dsimp only at hv
      obtain ⟨w, hw, hvw⟩ := mem_updateUser hv
      rcases hvw with h | h
      · exact Or.inr ⟨u, (findUser_mem heq).1, (calculateRandomSpinPrize r).prize,
          by rw [h]⟩
      · exact Or.inl ⟨w, hw, by rw [h]⟩

theorem withdraw_balance_shape (now : Int) (db : DB) (uid : Nat)
    (bId : String) (a : ℚ) (aid : Option Nat) (v : UserRec)
    (hv : v ∈ (handleWithdraw now db uid bId (.num a) aid).2.users) :
    (∃ w ∈ db.users, v.balance = w.balance) ∨
    (∃ w ∈ db.users, ∃ b : ℚ,
      w.balance = .num b ∧ 400 ≤ a ∧ a ≤ b ∧ v.balance = .num (b - a)) ∨
    (∃ w ∈ db.users, w.balance = .nan ∧ v.balance = .nan) := by
  unfold handleWithdraw at hv
  split at hv
  · exact Or.inl ⟨v, hv, rfl⟩
  · rename_i tokens2 heq
    dsimp only at hv
    split at hv
    · exact Or.inl ⟨v, hv, rfl⟩
    · rename_i hmin
      split at hv
      · exact Or.inl ⟨v, hv, rfl⟩
      · rename_i user hfu
        split at hv
        · exact Or.inl ⟨v, hv, rfl⟩
        · split at hv
          · exact Or.inl ⟨v, hv, rfl⟩
          · rename_i hbal
            dsimp only at hv
            obtain ⟨w, hw, hvw⟩ := mem_updateUser hv
            rcases hvw with h | h
            · have humem : user ∈ db.users := (findUser_mem hfu).1
              have hvbal : v.balance = user.balance.sub (.num a) := by rw [h]
              cases hub : user.balance with
              | num b =>
                  have hmin400 : (400 : ℚ) ≤ a := by
                    rw [show MIN_WITHDRAW = (400 : ℚ) from rfl] at hmin
                    simp only [JSNum.ltb, decide_eq_true_eq] at hmin
                    exact not_lt.mp hmin
                  have hab : a ≤ b := by
                    rw [hub] at hbal
                    simp only [JSNum.ltb, decide_eq_true_eq] at hbal
                    exact not_lt.mp hbal
                  refine Or.inr (Or.inl ⟨user, humem, b, hub, hmin400, hab, ?_⟩)
                  rw [hvbal, hub]
                  rfl
              | nan =>
                  refine Or.inr (Or.inr ⟨user, humem, hub, ?_⟩)
                  rw [hvbal, hub]
                  rfl
            · exact Or.inl ⟨w, hw, by rw [h]⟩

theorem commissionAmount_not_whole :
    (JSNum.num (REWARD_PER_AD * REFERRAL_COMMISSION_RATE)).isWholeb = false := by
  have h320 : REWARD_PER_AD * REFERRAL_COMMISSION_RATE = (3 : ℚ) / 20 := by
    norm_num [REWARD_PER_AD, REFERRAL_COMMISSION_RATE]
  simp only [JSNum.isWholeb, h320]
  rw [beq_eq_false_iff_ne]
  intro hden
  have hnum : ((((3:ℚ)/20).num : ℤ) : ℚ) = (3:ℚ)/20 :=
    Rat.coe_int_num_of_den_eq_one hden
  have h20 : (20 : ℚ) * ((((3:ℚ)/20).num : ℤ) : ℚ) = 3 := by
    rw [hnum]
    norm_num
  have hz : (20 : ℤ) * ((3:ℚ)/20).num = 3 := by exact_mod_cast h20
  omega

/-- C3 counterexample: a referrer whose balance is the non-negative
integer 0 receives the commission grant and ends with balance
3 × 0.05 = 0.15, which is not an integer — so the commission grant does
not preserve balance integrality. -/
theorem c3_balance_integer_counterexample :
    zeroBalanceReferrer.balance.nonnegb = true
    ∧ zeroBalanceReferrer.balance.isWholeb = true
    ∧ (handleCommission commissionDB (some 11) (some 9)).2.users =
        [{ zeroBalanceReferrer with
            balance := .num (REWARD_PER_AD * REFERRAL_COMMISSION_RATE) }]
    ∧ (JSNum.num (REWARD_PER_AD * REFERRAL_COMMISSION_RATE)).isWholeb = false := by
  refine ⟨by decide, by decide, ?_, commissionAmount_not_whole⟩
  have hfu : findUser commissionDB.users 11 = some zeroBalanceReferrer := by decide
  have hban : zeroBalanceReferrer.is_banned = false := rfl
  simp only [handleCommission, hfu, hban, Bool.false_eq_true, if_false]
  simp [updateUser, commissionDB, zeroBalanceReferrer, JSNum.add]

/-- C3 (amended): every operation with numeric inputs keeps all stored
balances non-negative, and register, watch-ad, spin, spin-result and
integer-amount withdrawals also preserve balance integrality; but the
commission grant adds REWARD_PER_AD × REFERRAL_COMMISSION_RATE = 3/20 =
0.15, which is not an integer, so commission does not preserve
integrality (and a NaN withdraw amount can break even non-negativity,
see the NaN analysis). -/
theorem c3_amended_balance_spec (now : Int) (db : DB) (uid rid eid : Nat)
    (refBy : Option Nat) (aid : Option Nat) (bId : String) (a r : ℚ) :
    ((∀ u ∈ db.users, u.balance.nonnegb = true) →
      (∀ v ∈ (handleRegister now db uid refBy).2.users, v.balance.nonnegb = true)
      ∧ (∀ v ∈ (handleWatchAd now db uid aid).2.users, v.balance.nonnegb = true)
      ∧ (∀ v ∈ (handleSpin now db uid aid).2.users, v.balance.nonnegb = true)
      ∧ (∀ v ∈ (handleSpinResult db uid r).2.users, v.balance.nonnegb = true)
      ∧ (∀ v ∈ (handleCommission db (some rid) (some eid)).2.users,
          v.balance.nonnegb = true)
      ∧ (∀ v ∈ (handleWithdraw now db uid bId (.num a) aid).2.users,
          v.balance.nonnegb = true))
    ∧ ((∀ u ∈ db.users, u.balance.isWholeb = true) →
      (∀ v ∈ (handleRegister now db uid refBy).2.users, v.balance.isWholeb = true)
      ∧ (∀ v ∈ (handleWatchAd now db uid aid).2.users, v.balance.isWholeb = true)
      ∧ (∀ v ∈ (handleSpin now db uid aid).2.users, v.balance.isWholeb = true)
      ∧ (∀ v ∈ (handleSpinResult db uid r).2.users, v.balance.isWholeb = true)
      ∧ (a.den = 1 →
          ∀ v ∈ (handleWithdraw now db uid bId (.num a) aid).2.users,
            v.balance.isWholeb = true))
    ∧ (REWARD_PER_AD * REFERRAL_COMMISSION_RATE = 3 / 20
        ∧ (JSNum.num (REWARD_PER_AD * REFERRAL_COMMISSION_RATE)).isWholeb = false
        ∧ (∀ u, findUser db.users rid = some u → u.is_banned = false →
            (handleCommission db (some rid) (some eid)).1 =
              .success (.commissionBalance
                (u.balance.add (.num (REWARD_PER_AD * REFERRAL_COMMISSION_RATE)))))) := by
  have hRden : (REWARD_PER_AD : ℚ).den = 1 := by
    rw [show REWARD_PER_AD = ((3 : ℕ) : ℚ) by norm_num [REWARD_PER_AD]]
    exact Rat.den_natCast 3
  refine ⟨?_, ?_, ?_⟩
  · intro hdb
    refine ⟨?_, ?_, ?_, ?_, ?_, ?_⟩
    · intro v hv
      rcases register_balance_shape now db uid refBy v hv with ⟨w, hw, he⟩ | he
      · rw [he]
        exact hdb w hw
      · rw [he]
        decide
    · intro v hv
      rcases watchAd_balance_shape now db uid aid v hv with ⟨w, hw, he⟩ | ⟨w, hw, he⟩
      · rw [he]
        exact hdb w hw
      · rw [he]
        exact nonnegb_add_num (hdb w hw) (by norm_num [REWARD_PER_AD])
    · intro v hv
      obtain ⟨w, hw, he⟩ := spin_balance_shape now db uid aid v hv
      rw [he]
      exact hdb w hw
    · intro v hv
      rcases spinResult_balance_shape db uid r v hv with ⟨w, hw, he⟩ | ⟨w, hw, p, he⟩
      · rw [he]
        exact hdb w hw
      · rw [he]
        exact nonnegb_add_num (hdb w hw) (Nat.cast_nonneg p)
    · intro v hv
      rcases commission_balance_shape db rid eid v hv with ⟨w, hw, he⟩ | ⟨w, hw, he⟩
      · rw [he]
        exact hdb w hw
      · rw [he]
        exact nonnegb_add_num (hdb w hw)
          (by norm_num [REWARD_PER_AD, REFERRAL_COMMISSION_RATE])
    · intro v hv
      rcases withdraw_balance_shape now db uid bId a aid v hv with
        ⟨w, hw, he⟩ | ⟨w, hw, b, hwb, h400, hab, he⟩ | ⟨w, hw, hwn, he⟩
      · rw [he]
        exact hdb w hw
      · rw [he]
        simp only [JSNum.nonnegb, decide_eq_true_eq]
        exact sub_nonneg.mpr hab
      · have := hdb w hw
        rw [hwn] at this
        simp [JSNum.nonnegb] at this
  · intro hdb
    refine ⟨?_, ?_, ?_, ?_, ?_⟩
    · intro v hv
      rcases register_balance_shape now db uid refBy v hv with ⟨w, hw, he⟩ | he
      · rw [he]
        exact hdb w hw
      · rw [he]
        decide
    · intro v hv
      rcases watchAd_balance_shape now db uid aid v hv with ⟨w, hw, he⟩ | ⟨w, hw, he⟩
      · rw [he]
        exact hdb w hw
      · rw [he]
        exact isWholeb_add_num (hdb w hw) hRden
    · intro v hv
      obtain ⟨w, hw, he⟩ := spin_balance_shape now db uid aid v hv
      rw [he]
      exact hdb w hw
    · intro v hv
      rcases spinResult_balance_shape db uid r v hv with ⟨w, hw, he⟩ | ⟨w, hw, p, he⟩
      · rw [he]
        exact hdb w hw
      · rw [he]
        exact isWholeb_add_num (hdb w hw) (Rat.den_natCast p)
    · intro hden v hv
      rcases withdraw_balance_shape now db uid bId a aid v hv with
        ⟨w, hw, he⟩ | ⟨w, hw, b, hwb, h400, hab, he⟩ | ⟨w, hw, hwn, he⟩
      · rw [he]
        exact hdb w hw
      · rw [he]
        have hbden : b.den = 1 := by
          have := hdb w hw
          rw [hwb] at this
          simpa [JSNum.isWholeb] using this
        simp only [JSNum.isWholeb, beq_iff_eq]
        exact den_one_sub hbden hden
      · have := hdb w hw
        rw [hwn] at this
        simp [JSNum.isWholeb] at this
  · refine ⟨by norm_num [REWARD_PER_AD, REFERRAL_COMMISSION_RATE],
      commissionAmount_not_whole, ?_⟩
    intro u hu hban
    simp only [handleCommission, hu, hban, Bool.false_eq_true, if_false]

/-- C3 witness: on the concrete store holding the zero-balance
referrer, the commission grant keeps all balances non-negative and the
response credits exactly balance + 3/20. -/
theorem c3_amended_balance_witness :
    (∀ v ∈ (handleCommission commissionDB (some 11) (some 9)).2.users,
      v.balance.nonnegb = true)
    ∧ (handleCommission commissionDB (some 11) (some 9)).1 =
        .success (.commissionBalance (zeroBalanceReferrer.balance.add
          (.num (REWARD_PER_AD * REFERRAL_COMMISSION_RATE)))) := by
  have h := c3_amended_balance_spec 0 commissionDB 11 11 9 none none "" 0 0
  exact ⟨(h.1 (by decide)).2.2.2.2.1,
    h.2.2.2.2 zeroBalanceReferrer (by decide) (by decide)⟩
